import Mathlib

/-!
Verification of the field-extraction pipeline of `app.py`
(`BusinessIntelligenceAgent`): the search adapter `duckduckgo_search`, the
five phase extractors, and `comprehensive_research`.

The embedding is shallow: each Python function becomes a Lean function.
The external `duckduckgo_search` backend (the `DDGS` client) is modelled as
an oracle mapping `(query, max_results, search_type)` to either a list of
raw results or an error string (a raised exception).  Python dicts with a
fixed key set become structures; the accumulated result dict of
`comprehensive_research` becomes an insertion-ordered association list,
with `dict.update` / `dict.__setitem__` modelled by `setKey`.
Python regular-expression searches used by the extractors are modelled
directly on character lists with the exact leftmost/greedy semantics of the
concrete patterns appearing in the source.
-/

/-- One `{value, source}` record of the result dict (`app.py` throughout). -/
structure FieldRecord where
  value : String
  source : String
deriving DecidableEq, Repr

/-- A formatted search hit: `{'title', 'url', 'description'}` (app.py lines 94-98). -/
structure SearchHit where
  title : String
  url : String
  description : String
deriving DecidableEq, Repr

/-- A raw result from the `DDGS` client, before formatting:
`result.get('title')`, `result.get('href')`, `result.get('body')`. -/
structure RawResult where
  title : String
  href : String
  body : String
deriving DecidableEq, Repr

/-- The external DuckDuckGo backend: for a `(query, max_results, search_type)`
triple it either returns a list of raw results or raises (an error string). -/
def Oracle : Type := String → Nat → String → Except String (List RawResult)

/-- The dict returned by `duckduckgo_search`: always a `results` list, plus an
`error` string when the backend raised (app.py lines 99, 103). -/
structure SearchResponse where
  results : List SearchHit
  error : Option String
deriving DecidableEq, Repr

/-- Formatting of one raw result (app.py lines 93-98). -/
def formatResult (r : RawResult) : SearchHit :=
  { title := r.title, url := r.href, description := r.body }

/-- `BusinessIntelligenceAgent.duckduckgo_search` (app.py lines 73-103):
returns the formatted results, or on any exception an empty list together
with the error string.  Total by construction: it never raises. -/
def duckduckgo_search (o : Oracle) (query : String) (max_results : Nat)
    (search_type : String) : SearchResponse :=
  match o query max_results search_type with
  | .ok rs => { results := rs.map formatResult, error := none }
  | .error e => { results := [], error := some e }

/-! ## String helpers (Python `in`, `.lower()`, `.strip()`, slicing) -/

/-- Python `\s` on the ASCII range: space, tab, newline, return, vtab, formfeed. -/
def pySpace (c : Char) : Bool :=
  c = ' ' || c = '\t' || c = '\n' || c = '\r' || c = '\x0b' || c = '\x0c'

/-- Substring scan on character lists: does `p` occur (contiguously) in the list? -/
def listInfixOf (p : List Char) : List Char → Bool
  | [] => p.isEmpty
  | c :: cs => p.isPrefixOf (c :: cs) || listInfixOf p cs

/-- Python `needle in haystack` for strings. -/
def substrOf (needle haystack : String) : Bool :=
  listInfixOf needle.toList haystack.toList

/-- Python `any(x in text for x in kws)`. -/
def containsAny (text : String) (kws : List String) : Bool :=
  kws.any (fun k => substrOf k text)

/-- Python `s.strip()`: remove whitespace from both ends. -/
def pyStrip (s : String) : String :=
  ⟨((s.toList.dropWhile pySpace).reverse.dropWhile pySpace).reverse⟩

/-- Python `s[:n]` on a string: the first `n` characters. -/
def pyTake (s : String) (n : Nat) : String :=
  ⟨s.toList.take n⟩

/-- Python `s.lower()` (ASCII range, which is all the keyword tests use). -/
def pyLower (s : String) : String :=
  ⟨s.toList.map Char.toLower⟩

/-! ## Regular-expression models

Each pattern that appears literally in `app.py` is modelled by a scanner
with Python's `re` semantics for that concrete pattern: try a match anchored
at each position from the left (including the end-of-string position), and
return the first success. -/

/-- `re.search` / first `re.findall` element: try `matchAt` at every
position left to right. -/
def reFirst {α : Type} (matchAt : List Char → Option α) : List Char → Option α
  | [] => matchAt []
  | c :: cs =>
    match matchAt (c :: cs) with
    | some v => some v
    | none => reFirst matchAt cs

/-- Character class `[A-Za-z\s,]` of the headquarters pattern. -/
def hqClassChar (c : Char) : Bool := c.isAlpha || pySpace c || c = ','

/-- Character class `[A-Za-z\s]` of the industry pattern. -/
def indClassChar (c : Char) : Bool := c.isAlpha || pySpace c

/-- Shared tail `.*?(<class>+)` of the location/industry patterns: the lazy
`.*?` stops at the first class character (every character it must consume is
outside the class, and `'\n'` is in the class, so `.` never has to cross a
newline); the capture group then takes the maximal class run. -/
def lazyThenClassRun (classChar : Char → Bool) (rest : List Char) : Option String :=
  let rest2 := rest.dropWhile (fun c => !classChar c)
  let grp := rest2.takeWhile classChar
  if grp.isEmpty then none else some ⟨grp⟩

/-- One anchored attempt of `(headquarters|based).*?([A-Za-z\s,]+)`
(app.py line 164), returning capture group 2. -/
def hqMatchAt (cs : List Char) : Option String :=
  if "headquarters".toList.isPrefixOf cs then lazyThenClassRun hqClassChar (cs.drop 12)
  else if "based".toList.isPrefixOf cs then lazyThenClassRun hqClassChar (cs.drop 5)
  else none

/-- `re.search(r'(headquarters|based).*?([A-Za-z\s,]+)', desc)`, group 2. -/
def hqSearch : List Char → Option String := reFirst hqMatchAt

/-- One anchored attempt of `(industry|sector).*?([A-Za-z\s]+)`
(app.py line 170), returning capture group 2. -/
def indMatchAt (cs : List Char) : Option String :=
  if "industry".toList.isPrefixOf cs then lazyThenClassRun indClassChar (cs.drop 8)
  else if "sector".toList.isPrefixOf cs then lazyThenClassRun indClassChar (cs.drop 6)
  else none

/-- `re.search(r'(industry|sector).*?([A-Za-z\s]+)', desc)`, group 2. -/
def industrySearch : List Char → Option String := reFirst indMatchAt

/-- One anchored attempt of `(\d+(?:,\d+)?)\s*(employees|staff|people)`
(app.py line 176), returning capture group 1.  `\d+` is greedy (backtracking
it leaves a digit in front of `\s*`/the unit word, which cannot match, so
the maximal runs are faithful), the optional `,\d+` part is taken exactly
when a comma followed by a digit follows, and the unit word must follow the
maximal whitespace run (no unit word starts with whitespace). -/
def empMatchAt (cs : List Char) : Option String :=
  let ds := cs.takeWhile Char.isDigit
  if ds.isEmpty then none
  else
    let rest := cs.dropWhile Char.isDigit
    let (g1, rest') :=
      match rest with
      | ',' :: r2 =>
        let ds2 := r2.takeWhile Char.isDigit
        if ds2.isEmpty then (ds, rest) else (ds ++ ',' :: ds2, r2.dropWhile Char.isDigit)
      | _ => (ds, rest)
    let rest2 := rest'.dropWhile pySpace
    if ["employees", "staff", "people"].any (fun w => w.toList.isPrefixOf rest2) then
      some ⟨g1⟩
    else none

/-- `re.search(r'(\d+(?:,\d+)?)\s*(employees|staff|people)', desc)`, group 1. -/
def empSearch : List Char → Option String := reFirst empMatchAt

/-- Unit words of the facilities pattern, in alternation order. -/
def facilityUnits : List String :=
  ["branches", "facilities", "locations", "offices", "warehouses"]

/-- One anchored attempt of `(\d+)\s*(branches|facilities|locations|offices|warehouses)`
(app.py line 220): a digit run, optional whitespace, then a unit word
immediately (no unit word starts with whitespace, so backtracking `\s*`
cannot help). -/
def facilityMatchAt (cs : List Char) : Option (String × String) :=
  let ds := cs.takeWhile Char.isDigit
  if ds.isEmpty then none
  else
    let rest2 := (cs.dropWhile Char.isDigit).dropWhile pySpace
    match facilityUnits.find? (fun w => w.toList.isPrefixOf rest2) with
    | some w => some (⟨ds⟩, w)
    | none => none

/-- First tuple of `re.findall(r'(\d+)\s*(branches|facilities|locations|offices|warehouses)', desc)`. -/
def facilityFirstMatch : List Char → Option (String × String) := reFirst facilityMatchAt

/-- Money-unit alternatives of the budget pattern, in alternation order. -/
def budgetUnits : List String := ["million", "billion", "cr", "lakhs", "crore"]

/-- Trailing keywords of the budget pattern, in alternation order. -/
def budgetKeywords : List String := ["budget", "capex", "investment", "spend"]

/-- One anchored attempt of
`(\$?\d+\.?\d*\s*(million|billion|cr|lakhs|crore)?)\s*(budget|capex|investment|spend)`
(app.py line 362), returning capture groups 1 and 2 (group 2 is `""` when the
optional unit is absent, as in `re.findall`).  The unit alternatives are
tried in order with the trailing keyword as continuation (so `cr` only wins
over `crore` when a keyword follows it), and when no unit matches the
keyword must follow the whitespace run directly. -/
def budgetMatchAt (cs : List Char) : Option (String × String) :=
  let (dollar, r0) := match cs with | '$' :: r => (true, r) | _ => (false, cs)
  let ds := r0.takeWhile Char.isDigit
  if ds.isEmpty then none
  else
    let r1 := r0.dropWhile Char.isDigit
    let (dot, r2) := match r1 with | '.' :: r => (true, r) | _ => (false, r1)
    let ds2 := r2.takeWhile Char.isDigit
    let r3 := r2.dropWhile Char.isDigit
    let ws1 := r3.takeWhile pySpace
    let r4 := r3.dropWhile pySpace
    let numPart : List Char :=
      (if dollar then ['$'] else []) ++ ds ++ (if dot then ['.'] else []) ++ ds2 ++ ws1
    let withUnit : Option (String × String) :=
      budgetUnits.findSome? (fun u =>
        if u.toList.isPrefixOf r4 then
          let r6 := (r4.drop u.length).dropWhile pySpace
          if budgetKeywords.any (fun k => k.toList.isPrefixOf r6) then
            some (⟨numPart ++ u.toList⟩, u)
          else none
        else none)
    match withUnit with
    | some m => some m
    | none =>
      if budgetKeywords.any (fun k => k.toList.isPrefixOf r4) then
        some (⟨numPart⟩, "")
      else none

/-- First tuple (groups 1, 2) of the budget `re.findall` (app.py line 362). -/
def budgetFirstMatch : List Char → Option (String × String) := reFirst budgetMatchAt

/-! ## Field updates

Every field assignment in the five extractors has the shape
`if not field["value"] and <trigger>: field = <found or unchanged>`, and each
block reads only its own field, so the per-hit scan is a record of
independent per-field updates. -/

/-- One `if not info[...]["value"] and <gate>` update: when the field is still
unset and the gate holds, install the found record (or keep the old one when
a pattern search produced nothing). -/
def updateField (r : FieldRecord) (gate : Bool) (found : Option FieldRecord) : FieldRecord :=
  if r.value = "" ∧ gate = true then found.getD r else r

/-! ## Phase 1: `extract_company_basic_info` (app.py lines 127-182) -/

/-- The five-field dict of `extract_company_basic_info`, in insertion order. -/
structure BasicInfo where
  websiteURL : FieldRecord
  linkedinURL : FieldRecord
  headquarters : FieldRecord
  industry : FieldRecord
  employeeCount : FieldRecord
deriving DecidableEq, Repr

/-- The initial all-empty dict (app.py lines 129-135). -/
def BasicInfo.init : BasicInfo :=
  ⟨⟨"", ""⟩, ⟨"", ""⟩, ⟨"", ""⟩, ⟨"", ""⟩, ⟨"", ""⟩⟩

/-- The dict as an ordered key/record list (Python dict iteration order). -/
def BasicInfo.toList (b : BasicInfo) : List (String × FieldRecord) :=
  [("Company Website URL", b.websiteURL),
   ("LinkedIn URL", b.linkedinURL),
   ("Headquarters (Location)", b.headquarters),
   ("Industry Category", b.industry),
   ("Employee Count (LinkedIn)", b.employeeCount)]

/-- Processing of one hit in the basic-info phase (app.py lines 149-178). -/
def scanBasicHit (info : BasicInfo) (item : SearchHit) : BasicInfo :=
  let url := item.url
  let title := pyLower item.title
  let desc := pyLower item.description
  { websiteURL :=
      updateField info.websiteURL (containsAny title ["official", "website", "home"])
        (some ⟨url, url⟩),
    linkedinURL :=
      updateField info.linkedinURL (substrOf "linkedin.com" url) (some ⟨url, url⟩),
    headquarters :=
      updateField info.headquarters
        (containsAny desc ["headquarters", "head office", "based in", "located in"])
        ((hqSearch desc.toList).map (fun loc => ⟨pyStrip loc, url⟩)),
    industry :=
      updateField info.industry (containsAny desc ["industry", "sector"])
        ((industrySearch desc.toList).map (fun ind => ⟨pyStrip ind, url⟩)),
    employeeCount :=
      updateField info.employeeCount true
        ((empSearch desc.toList).map (fun n => ⟨n ++ " employees", url⟩)) }

/-- One query iteration of the basic-info phase (app.py lines 146-180):
search with `max_results=3`, and when the result list is non-empty scan
every returned hit. -/
def basicQueryStep (o : Oracle) (info : BasicInfo) (query : String) : BasicInfo :=
  let result := duckduckgo_search o query 3 "text"
  if result.results ≠ [] then result.results.foldl scanBasicHit info else info

/-- `BusinessIntelligenceAgent.extract_company_basic_info` (app.py 127-182). -/
def extract_company_basic_info (o : Oracle) (company_name : String) : BasicInfo :=
  [company_name ++ " official website",
   company_name ++ " LinkedIn",
   company_name ++ " headquarters location",
   company_name ++ " industry",
   company_name ++ " employee count"].foldl (basicQueryStep o) BasicInfo.init

/-! ## Phase 2: `research_expansion_news` (app.py lines 184-227) -/

/-- The two-field dict of `research_expansion_news`, in insertion order. -/
structure ExpansionData where
  branchNetwork : FieldRecord
  expansionNews : FieldRecord
deriving DecidableEq, Repr

/-- Ordered key/record list of the expansion dict. -/
def ExpansionData.toList (d : ExpansionData) : List (String × FieldRecord) :=
  [("Branch Network / Facilities Count", d.branchNetwork),
   ("Expansion News (Last 12 Months)", d.expansionNews)]

/-- Processing of one news hit (app.py lines 196-207): value is
`f"{title} - {desc[:200]}..."` with the original-case description. -/
def scanNewsHit (d : ExpansionData) (item : SearchHit) : ExpansionData :=
  { d with
    expansionNews :=
      updateField d.expansionNews
        (containsAny (pyLower item.description)
          ["expand", "new facility", "new branch", "opening", "launch"])
        (some ⟨item.title ++ " - " ++ pyTake item.description 200 ++ "...", item.url⟩) }

/-- Processing of one facility hit (app.py lines 214-225): first tuple of the
facilities `findall` on the lower-cased description, value `"<count> <unit>"`. -/
def scanFacilityHit (d : ExpansionData) (item : SearchHit) : ExpansionData :=
  { d with
    branchNetwork :=
      updateField d.branchNetwork true
        ((facilityFirstMatch (pyLower item.description).toList).map
          (fun m => ⟨m.1 ++ " " ++ m.2, item.url⟩)) }

/-- `BusinessIntelligenceAgent.research_expansion_news` (app.py 184-227):
one news search and one text search, each scanning the first three hits. -/
def research_expansion_news (o : Oracle) (company_name : String) : ExpansionData :=
  let d : ExpansionData := ⟨⟨"", ""⟩, ⟨"", ""⟩⟩
  let news_result :=
    duckduckgo_search o (company_name ++ " expansion news 2024 2025 new facilities branches") 5 "news"
  let d :=
    if news_result.results ≠ [] then (news_result.results.take 3).foldl scanNewsHit d else d
  let facility_result :=
    duckduckgo_search o (company_name ++ " branch network facilities count locations offices") 5 "text"
  let d :=
    if facility_result.results ≠ [] then (facility_result.results.take 3).foldl scanFacilityHit d
    else d
  d

/-! ## Phase 3: `research_digital_transformation` (app.py lines 229-276) -/

/-- The three-field dict of `research_digital_transformation`. -/
structure DigitalData where
  digitalTransformation : FieldRecord
  iotAutomation : FieldRecord
  cloudAdoption : FieldRecord
deriving DecidableEq, Repr

/-- Ordered key/record list of the digital dict. -/
def DigitalData.toList (d : DigitalData) : List (String × FieldRecord) :=
  [("Digital Transformation Initiatives / Smart Infra Programs", d.digitalTransformation),
   ("IoT / Automation / Edge Integration Mentioned", d.iotAutomation),
   ("Cloud Adoption / GCC Setup", d.cloudAdoption)]

/-- Processing of one hit in the digital phase (app.py lines 246-272). -/
def scanDigitalHit (d : DigitalData) (item : SearchHit) : DigitalData :=
  let url := item.url
  let desc := pyLower item.description
  { digitalTransformation :=
      updateField d.digitalTransformation
        (containsAny desc
          ["digital transformation", "digital initiative", "smart infrastructure", "digitalization"])
        (some ⟨item.title ++ " - " ++ item.description, url⟩),
    iotAutomation :=
      updateField d.iotAutomation
        (containsAny desc ["iot", "automation", "edge computing", "sensors", "internet of things"])
        (some ⟨"Yes - " ++ item.description, url⟩),
    cloudAdoption :=
      updateField d.cloudAdoption
        (containsAny desc
          ["cloud adoption", "gcc setup", "aws", "azure", "google cloud", "cloud migration"])
        (some ⟨item.description, url⟩) }

/-- One query iteration of the digital phase (app.py lines 243-272):
`max_results=5`, scan the first three hits. -/
def digitalQueryStep (o : Oracle) (d : DigitalData) (query : String) : DigitalData :=
  let result := duckduckgo_search o query 5 "text"
  if result.results ≠ [] then (result.results.take 3).foldl scanDigitalHit d else d

/-- `BusinessIntelligenceAgent.research_digital_transformation` (app.py 229-276). -/
def research_digital_transformation (o : Oracle) (company_name : String) : DigitalData :=
  [company_name ++ " digital transformation initiatives",
   company_name ++ " smart infrastructure programs",
   company_name ++ " technology upgrade digitalization"].foldl (digitalQueryStep o)
    ⟨⟨"", ""⟩, ⟨"", ""⟩, ⟨"", ""⟩⟩

/-! ## Phase 4: `research_technology_stack` (app.py lines 278-330) -/

/-- The three-field dict of `research_technology_stack`. -/
structure TechData where
  itLeadership : FieldRecord
  networkVendors : FieldRecord
  wifiUpgrade : FieldRecord
deriving DecidableEq, Repr

/-- Ordered key/record list of the tech dict. -/
def TechData.toList (d : TechData) : List (String × FieldRecord) :=
  [("IT Infrastructure Leadership Change (CIO / CTO / Head Infra)", d.itLeadership),
   ("Existing Network Vendors / Tech Stack", d.networkVendors),
   ("Recent Wi-Fi Upgrade or LAN Tender Found", d.wifiUpgrade)]

/-- The fixed vendor keyword list (app.py line 310), in scan order. -/
def vendor_keywords : List String :=
  ["cisco", "juniper", "aruba", "hp", "dell", "vmware", "microsoft", "oracle", "aws", "azure"]

/-- Processing of one hit in the tech phase (app.py lines 295-326); the
vendor field collects every vendor keyword occurring in this hit's text. -/
def scanTechHit (d : TechData) (item : SearchHit) : TechData :=
  let url := item.url
  let desc := pyLower item.description
  let vendors := vendor_keywords.filter (fun v => substrOf v desc)
  { itLeadership :=
      updateField d.itLeadership
        (containsAny desc ["cio", "cto", "it director", "technology head", "chief information"])
        (some ⟨item.title ++ " - " ++ item.description, url⟩),
    networkVendors :=
      updateField d.networkVendors (!vendors.isEmpty)
        (some ⟨"Technologies mentioned: " ++ String.intercalate ", " vendors, url⟩),
    wifiUpgrade :=
      updateField d.wifiUpgrade
        (containsAny desc
          ["wi-fi upgrade", "lan upgrade", "network tender", "infrastructure upgrade", "wireless upgrade"])
        (some ⟨item.description, url⟩) }

/-- One query iteration of the tech phase: `max_results=5`, first three hits. -/
def techQueryStep (o : Oracle) (d : TechData) (query : String) : TechData :=
  let result := duckduckgo_search o query 5 "text"
  if result.results ≠ [] then (result.results.take 3).foldl scanTechHit d else d

/-- `BusinessIntelligenceAgent.research_technology_stack` (app.py 278-330). -/
def research_technology_stack (o : Oracle) (company_name : String) : TechData :=
  [company_name ++ " IT infrastructure leadership CIO CTO",
   company_name ++ " technology stack vendors",
   company_name ++ " network infrastructure Wi-Fi LAN"].foldl (techQueryStep o)
    ⟨⟨"", ""⟩, ⟨"", ""⟩, ⟨"", ""⟩⟩

/-! ## Phase 5: `research_financial_infrastructure` (app.py lines 332-371) -/

/-- The two-field dict of `research_financial_infrastructure`. -/
structure FinancialData where
  physicalInfra : FieldRecord
  itBudget : FieldRecord
deriving DecidableEq, Repr

/-- Ordered key/record list of the financial dict. -/
def FinancialData.toList (d : FinancialData) : List (String × FieldRecord) :=
  [("Physical Infrastructure Signals", d.physicalInfra),
   ("IT Infra Budget / Capex Allocation", d.itBudget)]

/-- Processing of one hit in the financial phase (app.py lines 348-367). -/
def scanFinancialHit (d : FinancialData) (item : SearchHit) : FinancialData :=
  let url := item.url
  let desc := pyLower item.description
  { physicalInfra :=
      updateField d.physicalInfra
        (containsAny desc
          ["data center", "server room", "network infrastructure", "physical infrastructure", "facility expansion"])
        (some ⟨item.title ++ " - " ++ item.description, url⟩),
    itBudget :=
      updateField d.itBudget true
        ((budgetFirstMatch desc.toList).map
          (fun m => ⟨"Budget mentioned: " ++ m.1 ++ " " ++ m.2, url⟩)) }

/-- One query iteration of the financial phase: `max_results=5`, first three hits. -/
def financialQueryStep (o : Oracle) (d : FinancialData) (query : String) : FinancialData :=
  let result := duckduckgo_search o query 5 "text"
  if result.results ≠ [] then (result.results.take 3).foldl scanFinancialHit d else d

/-- `BusinessIntelligenceAgent.research_financial_infrastructure` (app.py 332-371). -/
def research_financial_infrastructure (o : Oracle) (company_name : String) : FinancialData :=
  [company_name ++ " IT infrastructure budget capex",
   company_name ++ " physical infrastructure data center",
   company_name ++ " investment technology infrastructure"].foldl (financialQueryStep o)
    ⟨⟨"", ""⟩, ⟨"", ""⟩⟩

/-! ## Aggregation: `comprehensive_research` (app.py lines 373-422) -/

/-- The accumulated result dict: an insertion-ordered association list. -/
abbrev Results : Type := List (String × FieldRecord)

/-- Python `d[k] = v` on a dict: replace in place when the key exists,
append otherwise. -/
def setKey (d : Results) (k : String) (v : FieldRecord) : Results :=
  if d.any (fun p => p.1 == k) then d.map (fun p => if p.1 == k then (k, v) else p)
  else d ++ [(k, v)]

/-- Python `d.update(other)`: `d[k] = v` for each pair of `other` in order. -/
def updateResults (d : Results) (other : Results) : Results :=
  other.foldl (fun acc p => setKey acc p.1 p.2) d

/-- The seeded result dict (app.py lines 378-382), built before any search. -/
def seedResults (company_name : String) : Results :=
  [("Company Name", ⟨company_name, "User Input"⟩),
   ("Core intent", ⟨"Research", "Default"⟩),
   ("Stage", ⟨"Analysis", "Default"⟩)]

/-- A phase extractor as seen from the research loop: it may return a
partial result dict or raise (error string). -/
def PhaseFn : Type := String → Except String Results

/-- One iteration of the research loop (app.py lines 396-404): call the
extractor inside `try`; on success merge its dict, on an exception leave the
accumulated results untouched (the `except` branch only reports). -/
def runPhase (results : Results) (phase : PhaseFn) (company_name : String) : Results :=
  match phase company_name with
  | .ok phase_results => updateResults results phase_results
  | .error _ => results

/-- `relevance_signals` (app.py line 409): the number of entries with a
non-empty value and a non-empty source (every record has a `source` key). -/
def countSignals (d : Results) : Nat :=
  (d.filter (fun p => p.2.value != "" && p.2.source != "")).length

/-- `intent_score` (app.py line 410). -/
def intentTier (n : Nat) : String :=
  if n > 8 then "High" else if n > 5 then "Medium" else "Low"

/-- The templated relevance sentence (app.py line 413). -/
def whyRelevantText (n : Nat) : String :=
  "Found " ++ toString n ++
    " relevant business intelligence signals including expansion, digital transformation, and infrastructure initiatives"

/-- The body of `comprehensive_research` (app.py lines 373-422), generic in
the list of phase extractors run by the loop. -/
def comprehensive_research_phases (phases : List PhaseFn) (company_name : String) : Results :=
  let results := seedResults company_name
  let results := phases.foldl (fun acc p => runPhase acc p company_name) results
  let relevance_signals := countSignals results
  let intent_score := intentTier relevance_signals
  let results := setKey results "Why Relevant to Syntel" ⟨whyRelevantText relevance_signals, "Analysis"⟩
  let results := setKey results "Intent scoring" ⟨intent_score, "Algorithm"⟩
  results

/-- The five shipped research phases (app.py lines 385-391); in the
embedding none of them raises, so each is wrapped in `.ok`. -/
def researchPhases (o : Oracle) : List PhaseFn :=
  [fun c => .ok (extract_company_basic_info o c).toList,
   fun c => .ok (research_expansion_news o c).toList,
   fun c => .ok (research_digital_transformation o c).toList,
   fun c => .ok (research_technology_stack o c).toList,
   fun c => .ok (research_financial_infrastructure o c).toList]

/-- `BusinessIntelligenceAgent.comprehensive_research` (app.py 373-422). -/
def comprehensive_research (o : Oracle) (company_name : String) : Results :=
  comprehensive_research_phases (researchPhases o) company_name

/-- The result dict as it stands after the five phases and before the two
derived fields are appended — the state over which `relevance_signals` is
computed. -/
def phaseResults (o : Oracle) (c : String) : Results :=
  seedResults c ++ (extract_company_basic_info o c).toList ++
    (research_expansion_news o c).toList ++ (research_digital_transformation o c).toList ++
    (research_technology_stack o c).toList ++ (research_financial_infrastructure o c).toList

/-- The fixed field enumeration of a completed result, in insertion order:
three seeded fields, fifteen researched fields, two derived fields. -/
def fixedFieldNames : List String :=
  ["Company Name", "Core intent", "Stage",
   "Company Website URL", "LinkedIn URL", "Headquarters (Location)", "Industry Category",
   "Employee Count (LinkedIn)",
   "Branch Network / Facilities Count", "Expansion News (Last 12 Months)",
   "Digital Transformation Initiatives / Smart Infra Programs",
   "IoT / Automation / Edge Integration Mentioned", "Cloud Adoption / GCC Setup",
   "IT Infrastructure Leadership Change (CIO / CTO / Head Infra)",
   "Existing Network Vendors / Tech Stack", "Recent Wi-Fi Upgrade or LAN Tender Found",
   "Physical Infrastructure Signals", "IT Infra Budget / Capex Allocation",
   "Why Relevant to Syntel", "Intent scoring"]

/-- The fifteen researched field names (the five phase dicts, in order). -/
def researchedFieldNames : List String :=
  ["Company Website URL", "LinkedIn URL", "Headquarters (Location)", "Industry Category",
   "Employee Count (LinkedIn)",
   "Branch Network / Facilities Count", "Expansion News (Last 12 Months)",
   "Digital Transformation Initiatives / Smart Infra Programs",
   "IoT / Automation / Edge Integration Mentioned", "Cloud Adoption / GCC Setup",
   "IT Infrastructure Leadership Change (CIO / CTO / Head Infra)",
   "Existing Network Vendors / Tech Stack", "Recent Wi-Fi Upgrade or LAN Tender Found",
   "Physical Infrastructure Signals", "IT Infra Budget / Capex Allocation"]

/-- The sentinel source labels of synthetic fields (app.py 379-382, 412-420,
and the UI check on line 511). -/
def sentinelSources : List String := ["User Input", "Default", "Analysis", "Algorithm"]

/-- The sixteen `(query, max_results, search_type)` search calls one run
issues, in issue order. -/
def searchCalls (c : String) : List (String × Nat × String) :=
  [(c ++ " official website", 3, "text"),
   (c ++ " LinkedIn", 3, "text"),
   (c ++ " headquarters location", 3, "text"),
   (c ++ " industry", 3, "text"),
   (c ++ " employee count", 3, "text"),
   (c ++ " expansion news 2024 2025 new facilities branches", 5, "news"),
   (c ++ " branch network facilities count locations offices", 5, "text"),
   (c ++ " digital transformation initiatives", 5, "text"),
   (c ++ " smart infrastructure programs", 5, "text"),
   (c ++ " technology upgrade digitalization", 5, "text"),
   (c ++ " IT infrastructure leadership CIO CTO", 5, "text"),
   (c ++ " technology stack vendors", 5, "text"),
   (c ++ " network infrastructure Wi-Fi LAN", 5, "text"),
   (c ++ " IT infrastructure budget capex", 5, "text"),
   (c ++ " physical infrastructure data center", 5, "text"),
   (c ++ " investment technology infrastructure", 5, "text")]

/-- All hit URLs the adapter returned during one run. -/
def runHitURLs (o : Oracle) (c : String) : List String :=
  ((searchCalls c).map
    (fun call => (duckduckgo_search o call.1 call.2.1 call.2.2).results.map SearchHit.url)).flatten

/-! ## Structural lemmas about the result dict -/

theorem setKey_of_fresh (d : Results) (k : String) (v : FieldRecord)
    (h : d.any (fun p => p.1 == k) = false) : setKey d k v = d ++ [(k, v)] := by
  simp [setKey, h]

theorem updateResults_of_fresh : ∀ (other d : Results),
    (∀ k ∈ other.map Prod.fst, d.any (fun p => p.1 == k) = false) →
    (other.map Prod.fst).Nodup →
    updateResults d other = d ++ other := by
  intro other
  induction other with
  | nil => intro d _ _; simp [updateResults]
  | cons p t ih =>
    intro d hfresh hnd
    have hk : d.any (fun q => q.1 == p.1) = false := hfresh p.1 (by simp)
    have step : updateResults d (p :: t) = updateResults (d ++ [p]) t := by
      simp only [updateResults, List.foldl_cons]
      rw [setKey_of_fresh d p.1 p.2 hk]
    rw [step, ih (d ++ [p])]
    · simp
    · intro k hkt
      have hne : p.1 ≠ k := by
        simp only [List.map_cons, List.nodup_cons] at hnd
        intro he
        exact hnd.1 (he ▸ hkt)
      simp only [List.any_append, hfresh k (by simp [hkt]), Bool.false_or]
      simp [hne]
    · simp only [List.map_cons, List.nodup_cons] at hnd
      exact hnd.2

theorem research_afterPhases (o : Oracle) (c : String) :
    (researchPhases o).foldl (fun acc p => runPhase acc p c) (seedResults c) = phaseResults o c := by
  have e1 : updateResults (seedResults c) (extract_company_basic_info o c).toList
      = seedResults c ++ (extract_company_basic_info o c).toList := by
    apply updateResults_of_fresh
    · intro k hk
      simp only [BasicInfo.toList, List.map_cons, List.map_nil, List.mem_cons,
        List.not_mem_nil, or_false] at hk
      rcases hk with rfl | rfl | rfl | rfl | rfl <;> rfl
    · simp only [BasicInfo.toList, List.map_cons, List.map_nil]
      decide
  have e2 : updateResults (seedResults c ++ (extract_company_basic_info o c).toList)
        (research_expansion_news o c).toList
      = seedResults c ++ (extract_company_basic_info o c).toList
          ++ (research_expansion_news o c).toList := by
    apply updateResults_of_fresh
    · intro k hk
      simp only [ExpansionData.toList, List.map_cons, List.map_nil, List.mem_cons,
        List.not_mem_nil, or_false] at hk
      rcases hk with rfl | rfl <;> rfl
    · simp only [ExpansionData.toList, List.map_cons, List.map_nil]
      decide
  have e3 : updateResults (seedResults c ++ (extract_company_basic_info o c).toList
          ++ (research_expansion_news o c).toList)
        (research_digital_transformation o c).toList
      = seedResults c ++ (extract_company_basic_info o c).toList
          ++ (research_expansion_news o c).toList
          ++ (research_digital_transformation o c).toList := by
    apply updateResults_of_fresh
    · intro k hk
      simp only [DigitalData.toList, List.map_cons, List.map_nil, List.mem_cons,
        List.not_mem_nil, or_false] at hk
      rcases hk with rfl | rfl | rfl <;> rfl
    · simp only [DigitalData.toList, List.map_cons, List.map_nil]
      decide
  have e4 : updateResults (seedResults c ++ (extract_company_basic_info o c).toList
          ++ (research_expansion_news o c).toList
          ++ (research_digital_transformation o c).toList)
        (research_technology_stack o c).toList
      = seedResults c ++ (extract_company_basic_info o c).toList
          ++ (research_expansion_news o c).toList
          ++ (research_digital_transformation o c).toList
          ++ (research_technology_stack o c).toList := by
    apply updateResults_of_fresh
    · intro k hk
      simp only [TechData.toList, List.map_cons, List.map_nil, List.mem_cons,
        List.not_mem_nil, or_false] at hk
      rcases hk with rfl | rfl | rfl <;> rfl
    · simp only [TechData.toList, List.map_cons, List.map_nil]
      decide
  have e5 : updateResults (seedResults c ++ (extract_company_basic_info o c).toList
          ++ (research_expansion_news o c).toList
          ++ (research_digital_transformation o c).toList
          ++ (research_technology_stack o c).toList)
        (research_financial_infrastructure o c).toList
      = seedResults c ++ (extract_company_basic_info o c).toList
          ++ (research_expansion_news o c).toList
          ++ (research_digital_transformation o c).toList
          ++ (research_technology_stack o c).toList
          ++ (research_financial_infrastructure o c).toList := by
    apply updateResults_of_fresh
    · intro k hk
      simp only [FinancialData.toList, List.map_cons, List.map_nil, List.mem_cons,
        List.not_mem_nil, or_false] at hk
      rcases hk with rfl | rfl <;> rfl
    · simp only [FinancialData.toList, List.map_cons, List.map_nil]
      decide
  simp only [researchPhases, List.foldl_cons, List.foldl_nil, runPhase]
  rw [e1, e2, e3, e4, e5]
  rfl

theorem research_normal_form (o : Oracle) (c : String) :
    comprehensive_research o c =
      phaseResults o c ++
        [("Why Relevant to Syntel", ⟨whyRelevantText (countSignals (phaseResults o c)), "Analysis"⟩),
         ("Intent scoring", ⟨intentTier (countSignals (phaseResults o c)), "Algorithm"⟩)] := by
  show comprehensive_research_phases (researchPhases o) c = _
  simp only [comprehensive_research_phases]
  rw [research_afterPhases o c]
  rw [setKey_of_fresh _ _ _ (by rfl), setKey_of_fresh _ _ _ (by rfl)]
  simp

/-! ## Generic scan lemmas (first-match-wins over hit folds) -/

theorem updateField_stable (r : FieldRecord) (gate : Bool) (found : Option FieldRecord)
    (h : r.value ≠ "") : updateField r gate found = r := by
  simp [updateField, h]

theorem updateField_sets (r : FieldRecord) (gate : Bool) (v : FieldRecord)
    (h : r.value = "") (hg : gate = true) : updateField r gate (some v) = v := by
  simp [updateField, h, hg]

theorem foldl_field_stable {σ β : Type} (f : σ → β → σ) (g : σ → FieldRecord)
    (hst : ∀ s x, (g s).value ≠ "" → g (f s x) = g s) :
    ∀ (l : List β) (s : σ), (g s).value ≠ "" → g (l.foldl f s) = g s := by
  intro l
  induction l with
  | nil => intro s h; simp
  | cons x t ih =>
    intro s h
    have hx : g (f s x) = g s := hst s x h
    simp only [List.foldl_cons]
    rw [ih (f s x) (by rw [hx]; exact h), hx]

theorem foldl_first_match {σ β : Type} (f : σ → β → σ) (g : σ → FieldRecord)
    (hst : ∀ s x, (g s).value ≠ "" → g (f s x) = g s)
    (l : List β) (s : σ) (x : β) (h : (g (f s x)).value ≠ "") :
    g ((x :: l).foldl f s) = g (f s x) := by
  simp only [List.foldl_cons]
  exact foldl_field_stable f g hst l (f s x) h

/-! ## Lookup of specific fields in a completed result -/

theorem lookup_intent (o : Oracle) (c : String) :
    List.lookup "Intent scoring" (comprehensive_research o c)
      = some ⟨intentTier (countSignals (phaseResults o c)), "Algorithm"⟩ := by
  rw [research_normal_form]
  rfl

theorem lookup_why (o : Oracle) (c : String) :
    List.lookup "Why Relevant to Syntel" (comprehensive_research o c)
      = some ⟨whyRelevantText (countSignals (phaseResults o c)), "Analysis"⟩ := by
  rw [research_normal_form]
  rfl

theorem lookup_website (o : Oracle) (c : String) :
    List.lookup "Company Website URL" (comprehensive_research o c)
      = some (extract_company_basic_info o c).websiteURL := by
  rw [research_normal_form]
  rfl

theorem countSignals_append (a b : Results) :
    countSignals (a ++ b) = countSignals a + countSignals b := by
  simp [countSignals, List.filter_append]

/-! ## More lookup helpers -/

theorem lookup_linkedin (o : Oracle) (c : String) :
    List.lookup "LinkedIn URL" (comprehensive_research o c)
      = some (extract_company_basic_info o c).linkedinURL := by
  rw [research_normal_form]
  rfl

theorem lookup_headquarters (o : Oracle) (c : String) :
    List.lookup "Headquarters (Location)" (comprehensive_research o c)
      = some (extract_company_basic_info o c).headquarters := by
  rw [research_normal_form]
  rfl

theorem lookup_industry (o : Oracle) (c : String) :
    List.lookup "Industry Category" (comprehensive_research o c)
      = some (extract_company_basic_info o c).industry := by
  rw [research_normal_form]
  rfl

theorem lookup_employee (o : Oracle) (c : String) :
    List.lookup "Employee Count (LinkedIn)" (comprehensive_research o c)
      = some (extract_company_basic_info o c).employeeCount := by
  rw [research_normal_form]
  rfl

theorem lookup_digital (o : Oracle) (c : String) :
    List.lookup "Digital Transformation Initiatives / Smart Infra Programs" (comprehensive_research o c)
      = some (research_digital_transformation o c).digitalTransformation := by
  rw [research_normal_form]
  rfl

theorem lookup_iot (o : Oracle) (c : String) :
    List.lookup "IoT / Automation / Edge Integration Mentioned" (comprehensive_research o c)
      = some (research_digital_transformation o c).iotAutomation := by
  rw [research_normal_form]
  rfl

theorem lookup_cloud (o : Oracle) (c : String) :
    List.lookup "Cloud Adoption / GCC Setup" (comprehensive_research o c)
      = some (research_digital_transformation o c).cloudAdoption := by
  rw [research_normal_form]
  rfl

/-! ## Intent-tier helpers -/

theorem intentTier_eq_low {n : Nat} (h : n ≤ 5) : intentTier n = "Low" := by
  unfold intentTier
  rw [if_neg (by omega), if_neg (by omega)]

theorem intentTier_ne_empty (n : Nat) : intentTier n ≠ "" := by
  unfold intentTier
  split_ifs <;> simp

theorem string_append_left_ne_empty (s t : String) (hs : s.data ≠ []) : s ++ t ≠ "" := by
  obtain ⟨ds⟩ := s
  obtain ⟨dt⟩ := t
  intro h
  have h2 : ds ++ dt = ([] : List Char) := congrArg String.data h
  exact hs (List.append_eq_nil.mp h2).1

theorem whyRelevantText_ne_empty (n : Nat) : whyRelevantText n ≠ "" := by
  unfold whyRelevantText
  rw [String.append_assoc]
  exact string_append_left_ne_empty _ _ (by decide)

theorem countSignals_seed_le (c : String) : countSignals (seedResults c) ≤ 3 :=
  List.length_filter_le _ _

theorem countSignals_seed_of_ne (c : String) (hc : c ≠ "") : countSignals (seedResults c) = 3 := by
  have hb : (c != "") = true := bne_iff_ne.mpr hc
  simp [countSignals, seedResults, List.filter, hb]

/-! ## Failure of the headquarters regex without its literal keywords -/

theorem listInfixOf_cons_false {p : List Char} {c : Char} {cs : List Char}
    (h : listInfixOf p (c :: cs) = false) :
    p.isPrefixOf (c :: cs) = false ∧ listInfixOf p cs = false := by
  have h' := h
  rw [listInfixOf] at h'
  exact Bool.or_eq_false_iff.mp h'

theorem hqSearch_eq_none : ∀ (cs : List Char),
    listInfixOf "headquarters".toList cs = false →
    listInfixOf "based".toList cs = false →
    hqSearch cs = none := by
  intro cs
  induction cs with
  | nil => intro _ _; rfl
  | cons c cs ih =>
    intro h1 h2
    obtain ⟨hp1, ht1⟩ := listInfixOf_cons_false h1
    obtain ⟨hp2, ht2⟩ := listInfixOf_cons_false h2
    have hm : hqMatchAt (c :: cs) = none := by
      unfold hqMatchAt
      rw [if_neg (show ¬("headquarters".toList.isPrefixOf (c :: cs) = true) by
          rw [hp1]; exact Bool.false_ne_true),
        if_neg (show ¬("based".toList.isPrefixOf (c :: cs) = true) by
          rw [hp2]; exact Bool.false_ne_true)]
    show reFirst hqMatchAt (c :: cs) = none
    simp only [reFirst, hm]
    exact ih ht1 ht2

/-! ## Oracle congruence: the run depends only on the issued search calls -/

theorem ddg_congr (o₁ o₂ : Oracle) (q : String) (m : Nat) (t : String)
    (h : o₁ q m t = o₂ q m t) :
    duckduckgo_search o₁ q m t = duckduckgo_search o₂ q m t := by
  unfold duckduckgo_search
  rw [h]

theorem foldl_congr_mem {σ β : Type} (f₁ f₂ : σ → β → σ) :
    ∀ (l : List β) (s : σ), (∀ s' x, x ∈ l → f₁ s' x = f₂ s' x) →
      l.foldl f₁ s = l.foldl f₂ s := by
  intro l
  induction l with
  | nil => intro s _; rfl
  | cons x t ih =>
    intro s h
    simp only [List.foldl_cons]
    rw [h s x (by simp)]
    exact ih _ (fun s' y hy => h s' y (by simp [hy]))

theorem basic_congr (o₁ o₂ : Oracle) (c : String)
    (h : ∀ call ∈ searchCalls c, o₁ call.1 call.2.1 call.2.2 = o₂ call.1 call.2.1 call.2.2) :
    extract_company_basic_info o₁ c = extract_company_basic_info o₂ c := by
  unfold extract_company_basic_info
  apply foldl_congr_mem
  intro s q hq
  have hcall : (q, 3, "text") ∈ searchCalls c := by
    simp only [List.mem_cons, List.not_mem_nil, or_false] at hq
    rcases hq with rfl | rfl | rfl | rfl | rfl <;> simp [searchCalls]
  unfold basicQueryStep
  rw [ddg_congr o₁ o₂ q 3 "text" (h _ hcall)]

theorem expansion_congr (o₁ o₂ : Oracle) (c : String)
    (h : ∀ call ∈ searchCalls c, o₁ call.1 call.2.1 call.2.2 = o₂ call.1 call.2.1 call.2.2) :
    research_expansion_news o₁ c = research_expansion_news o₂ c := by
  unfold research_expansion_news
  rw [ddg_congr o₁ o₂ (c ++ " expansion news 2024 2025 new facilities branches") 5 "news"
      (h (c ++ " expansion news 2024 2025 new facilities branches", 5, "news") (by simp [searchCalls])),
    ddg_congr o₁ o₂ (c ++ " branch network facilities count locations offices") 5 "text"
      (h (c ++ " branch network facilities count locations offices", 5, "text") (by simp [searchCalls]))]

theorem digital_congr (o₁ o₂ : Oracle) (c : String)
    (h : ∀ call ∈ searchCalls c, o₁ call.1 call.2.1 call.2.2 = o₂ call.1 call.2.1 call.2.2) :
    research_digital_transformation o₁ c = research_digital_transformation o₂ c := by
  unfold research_digital_transformation
  apply foldl_congr_mem
  intro s q hq
  have hcall : (q, 5, "text") ∈ searchCalls c := by
    simp only [List.mem_cons, List.not_mem_nil, or_false] at hq
    rcases hq with rfl | rfl | rfl <;> simp [searchCalls]
  unfold digitalQueryStep
  rw [ddg_congr o₁ o₂ q 5 "text" (h _ hcall)]

theorem tech_congr (o₁ o₂ : Oracle) (c : String)
    (h : ∀ call ∈ searchCalls c, o₁ call.1 call.2.1 call.2.2 = o₂ call.1 call.2.1 call.2.2) :
    research_technology_stack o₁ c = research_technology_stack o₂ c := by
  unfold research_technology_stack
  apply foldl_congr_mem
  intro s q hq
  have hcall : (q, 5, "text") ∈ searchCalls c := by
    simp only [List.mem_cons, List.not_mem_nil, or_false] at hq
    rcases hq with rfl | rfl | rfl <;> simp [searchCalls]
  unfold techQueryStep
  rw [ddg_congr o₁ o₂ q 5 "text" (h _ hcall)]

theorem financial_congr (o₁ o₂ : Oracle) (c : String)
    (h : ∀ call ∈ searchCalls c, o₁ call.1 call.2.1 call.2.2 = o₂ call.1 call.2.1 call.2.2) :
    research_financial_infrastructure o₁ c = research_financial_infrastructure o₂ c := by
  unfold research_financial_infrastructure
  apply foldl_congr_mem
  intro s q hq
  have hcall : (q, 5, "text") ∈ searchCalls c := by
    simp only [List.mem_cons, List.not_mem_nil, or_false] at hq
    rcases hq with rfl | rfl | rfl <;> simp [searchCalls]
  unfold financialQueryStep
  rw [ddg_congr o₁ o₂ q 5 "text" (h _ hcall)]

/-! ## Source provenance: every non-sentinel source is a returned hit URL -/

/-- A record's source is either still empty or one of the allowed URLs. -/
def fieldSrcOK (A : List String) (r : FieldRecord) : Prop :=
  r.source = "" ∨ r.source ∈ A

theorem updateField_srcOK (A : List String) (r : FieldRecord) (gate : Bool)
    (found : Option FieldRecord) (hr : fieldSrcOK A r)
    (hf : ∀ v, found = some v → v.source ∈ A) :
    fieldSrcOK A (updateField r gate found) := by
  unfold updateField
  split
  · cases hfound : found with
    | none => simpa [hfound] using hr
    | some v => simp only [hfound, Option.getD_some]; exact Or.inr (hf v hfound)
  · exact hr

theorem url_mem_runHits (o : Oracle) (c : String) (q : String) (m : Nat) (t : String)
    (hcall : (q, m, t) ∈ searchCalls c) :
    ∀ h ∈ (duckduckgo_search o q m t).results, h.url ∈ runHitURLs o c := by
  intro h hh
  unfold runHitURLs
  exact List.mem_flatten_of_mem
    (List.mem_map_of_mem (fun call => (duckduckgo_search o call.1 call.2.1 call.2.2).results.map SearchHit.url) hcall)
    (List.mem_map_of_mem SearchHit.url hh)

theorem foldl_srcOK {σ : Type} (f : σ → SearchHit → σ) (P : σ → Prop) (A : List String)
    (hf : ∀ s h, h.url ∈ A → P s → P (f s h)) :
    ∀ (l : List SearchHit), (∀ h ∈ l, h.url ∈ A) → ∀ s, P s → P (l.foldl f s) := by
  intro l
  induction l with
  | nil => intro _ s hs; exact hs
  | cons x t ih =>
    intro hl s hs
    simp only [List.foldl_cons]
    exact ih (fun h hh => hl h (by simp [hh])) _ (hf s x (hl x (by simp)) hs)

/-- All five basic-info fields have provenance-respecting sources. -/
def basicSrcOK (A : List String) (b : BasicInfo) : Prop :=
  fieldSrcOK A b.websiteURL ∧ fieldSrcOK A b.linkedinURL ∧ fieldSrcOK A b.headquarters ∧
    fieldSrcOK A b.industry ∧ fieldSrcOK A b.employeeCount

theorem scanBasicHit_srcOK (A : List String) (b : BasicInfo) (item : SearchHit)
    (hurl : item.url ∈ A) (hb : basicSrcOK A b) : basicSrcOK A (scanBasicHit b item) := by
  obtain ⟨h1, h2, h3, h4, h5⟩ := hb
  refine ⟨?_, ?_, ?_, ?_, ?_⟩
  · exact updateField_srcOK A _ _ _ h1 (fun v hv => by cases hv; exact hurl)
  · exact updateField_srcOK A _ _ _ h2 (fun v hv => by cases hv; exact hurl)
  · refine updateField_srcOK A _ _ _ h3 (fun v hv => ?_)
    cases hq : hqSearch (pyLower item.description).toList with
    | none => rw [hq] at hv; cases hv
    | some loc => rw [hq] at hv; cases hv; exact hurl
  · refine updateField_srcOK A _ _ _ h4 (fun v hv => ?_)
    cases hq : industrySearch (pyLower item.description).toList with
    | none => rw [hq] at hv; cases hv
    | some ind => rw [hq] at hv; cases hv; exact hurl
  · refine updateField_srcOK A _ _ _ h5 (fun v hv => ?_)
    cases hq : empSearch (pyLower item.description).toList with
    | none => rw [hq] at hv; cases hv
    | some n => rw [hq] at hv; cases hv; exact hurl

theorem basicStep_srcOK (o : Oracle) (c : String) (q : String)
    (hcall : (q, 3, "text") ∈ searchCalls c) (b : BasicInfo)
    (hb : basicSrcOK (runHitURLs o c) b) :
    basicSrcOK (runHitURLs o c) (basicQueryStep o b q) := by
  simp only [basicQueryStep]
  split
  · exact foldl_srcOK scanBasicHit _ _ (fun s h hu hs => scanBasicHit_srcOK _ s h hu hs) _
      (url_mem_runHits o c q 3 "text" hcall) b hb
  · exact hb

theorem basic_phase_srcOK (o : Oracle) (c : String) :
    basicSrcOK (runHitURLs o c) (extract_company_basic_info o c) := by
  unfold extract_company_basic_info
  simp only [List.foldl_cons, List.foldl_nil]
  apply basicStep_srcOK o c _ (by simp [searchCalls])
  apply basicStep_srcOK o c _ (by simp [searchCalls])
  apply basicStep_srcOK o c _ (by simp [searchCalls])
  apply basicStep_srcOK o c _ (by simp [searchCalls])
  apply basicStep_srcOK o c _ (by simp [searchCalls])
  exact ⟨Or.inl rfl, Or.inl rfl, Or.inl rfl, Or.inl rfl, Or.inl rfl⟩

/-- Both expansion fields have provenance-respecting sources. -/
def expansionSrcOK (A : List String) (d : ExpansionData) : Prop :=
  fieldSrcOK A d.branchNetwork ∧ fieldSrcOK A d.expansionNews

theorem scanNewsHit_srcOK (A : List String) (d : ExpansionData) (item : SearchHit)
    (hurl : item.url ∈ A) (hd : expansionSrcOK A d) : expansionSrcOK A (scanNewsHit d item) := by
  obtain ⟨h1, h2⟩ := hd
  exact ⟨h1, updateField_srcOK A _ _ _ h2 (fun v hv => by cases hv; exact hurl)⟩

theorem scanFacilityHit_srcOK (A : List String) (d : ExpansionData) (item : SearchHit)
    (hurl : item.url ∈ A) (hd : expansionSrcOK A d) : expansionSrcOK A (scanFacilityHit d item) := by
  obtain ⟨h1, h2⟩ := hd
  refine ⟨?_, h2⟩
  refine updateField_srcOK A _ _ _ h1 (fun v hv => ?_)
  cases hq : facilityFirstMatch (pyLower item.description).toList with
  | none => rw [hq] at hv; cases hv
  | some m => rw [hq] at hv; cases hv; exact hurl

theorem expansion_phase_srcOK (o : Oracle) (c : String) :
    expansionSrcOK (runHitURLs o c) (research_expansion_news o c) := by
  simp only [research_expansion_news]
  split
  · split
    · apply foldl_srcOK scanFacilityHit _ _ (fun s h hu hs => scanFacilityHit_srcOK _ s h hu hs) _
        (fun h hh => url_mem_runHits o c _ 5 "text" (by simp [searchCalls]) h (List.mem_of_mem_take hh))
      apply foldl_srcOK scanNewsHit _ _ (fun s h hu hs => scanNewsHit_srcOK _ s h hu hs) _
        (fun h hh => url_mem_runHits o c _ 5 "news" (by simp [searchCalls]) h (List.mem_of_mem_take hh))
      exact ⟨Or.inl rfl, Or.inl rfl⟩
    · apply foldl_srcOK scanFacilityHit _ _ (fun s h hu hs => scanFacilityHit_srcOK _ s h hu hs) _
        (fun h hh => url_mem_runHits o c _ 5 "text" (by simp [searchCalls]) h (List.mem_of_mem_take hh))
      exact ⟨Or.inl rfl, Or.inl rfl⟩
  · split
    · apply foldl_srcOK scanNewsHit _ _ (fun s h hu hs => scanNewsHit_srcOK _ s h hu hs) _
        (fun h hh => url_mem_runHits o c _ 5 "news" (by simp [searchCalls]) h (List.mem_of_mem_take hh))
      exact ⟨Or.inl rfl, Or.inl rfl⟩
    · exact ⟨Or.inl rfl, Or.inl rfl⟩

/-- All three digital-transformation fields have provenance-respecting sources. -/
def digitalSrcOK (A : List String) (d : DigitalData) : Prop :=
  fieldSrcOK A d.digitalTransformation ∧ fieldSrcOK A d.iotAutomation ∧ fieldSrcOK A d.cloudAdoption

theorem scanDigitalHit_srcOK (A : List String) (d : DigitalData) (item : SearchHit)
    (hurl : item.url ∈ A) (hd : digitalSrcOK A d) : digitalSrcOK A (scanDigitalHit d item) := by
  obtain ⟨h1, h2, h3⟩ := hd
  exact ⟨updateField_srcOK A _ _ _ h1 (fun v hv => by cases hv; exact hurl),
    updateField_srcOK A _ _ _ h2 (fun v hv => by cases hv; exact hurl),
    updateField_srcOK A _ _ _ h3 (fun v hv => by cases hv; exact hurl)⟩

theorem digitalStep_srcOK (o : Oracle) (c : String) (q : String)
    (hcall : (q, 5, "text") ∈ searchCalls c) (d : DigitalData)
    (hd : digitalSrcOK (runHitURLs o c) d) :
    digitalSrcOK (runHitURLs o c) (digitalQueryStep o d q) := by
  simp only [digitalQueryStep]
  split
  · exact foldl_srcOK scanDigitalHit _ _ (fun s h hu hs => scanDigitalHit_srcOK _ s h hu hs) _
      (fun h hh => url_mem_runHits o c q 5 "text" hcall h (List.mem_of_mem_take hh)) d hd
  · exact hd

theorem digital_phase_srcOK (o : Oracle) (c : String) :
    digitalSrcOK (runHitURLs o c) (research_digital_transformation o c) := by
  unfold research_digital_transformation
  simp only [List.foldl_cons, List.foldl_nil]
  apply digitalStep_srcOK o c _ (by simp [searchCalls])
  apply digitalStep_srcOK o c _ (by simp [searchCalls])
  apply digitalStep_srcOK o c _ (by simp [searchCalls])
  exact ⟨Or.inl rfl, Or.inl rfl, Or.inl rfl⟩

/-- All three tech-stack fields have provenance-respecting sources. -/
def techSrcOK (A : List String) (d : TechData) : Prop :=
  fieldSrcOK A d.itLeadership ∧ fieldSrcOK A d.networkVendors ∧ fieldSrcOK A d.wifiUpgrade

theorem scanTechHit_srcOK (A : List String) (d : TechData) (item : SearchHit)
    (hurl : item.url ∈ A) (hd : techSrcOK A d) : techSrcOK A (scanTechHit d item) := by
  obtain ⟨h1, h2, h3⟩ := hd
  exact ⟨updateField_srcOK A _ _ _ h1 (fun v hv => by cases hv; exact hurl),
    updateField_srcOK A _ _ _ h2 (fun v hv => by cases hv; exact hurl),
    updateField_srcOK A _ _ _ h3 (fun v hv => by cases hv; exact hurl)⟩

theorem techStep_srcOK (o : Oracle) (c : String) (q : String)
    (hcall : (q, 5, "text") ∈ searchCalls c) (d : TechData)
    (hd : techSrcOK (runHitURLs o c) d) :
    techSrcOK (runHitURLs o c) (techQueryStep o d q) := by
  simp only [techQueryStep]
  split
  · exact foldl_srcOK scanTechHit _ _ (fun s h hu hs => scanTechHit_srcOK _ s h hu hs) _
      (fun h hh => url_mem_runHits o c q 5 "text" hcall h (List.mem_of_mem_take hh)) d hd
  · exact hd

theorem tech_phase_srcOK (o : Oracle) (c : String) :
    techSrcOK (runHitURLs o c) (research_technology_stack o c) := by
  unfold research_technology_stack
  simp only [List.foldl_cons, List.foldl_nil]
  apply techStep_srcOK o c _ (by simp [searchCalls])
  apply techStep_srcOK o c _ (by simp [searchCalls])
  apply techStep_srcOK o c _ (by simp [searchCalls])
  exact ⟨Or.inl rfl, Or.inl rfl, Or.inl rfl⟩

/-- Both financial fields have provenance-respecting sources. -/
def financialSrcOK (A : List String) (d : FinancialData) : Prop :=
  fieldSrcOK A d.physicalInfra ∧ fieldSrcOK A d.itBudget

theorem scanFinancialHit_srcOK (A : List String) (d : FinancialData) (item : SearchHit)
    (hurl : item.url ∈ A) (hd : financialSrcOK A d) : financialSrcOK A (scanFinancialHit d item) := by
  obtain ⟨h1, h2⟩ := hd
  refine ⟨updateField_srcOK A _ _ _ h1 (fun v hv => by cases hv; exact hurl), ?_⟩
  refine updateField_srcOK A _ _ _ h2 (fun v hv => ?_)
  cases hq : budgetFirstMatch (pyLower item.description).toList with
  | none => rw [hq] at hv; cases hv
  | some m => rw [hq] at hv; cases hv; exact hurl

theorem financialStep_srcOK (o : Oracle) (c : String) (q : String)
    (hcall : (q, 5, "text") ∈ searchCalls c) (d : FinancialData)
    (hd : financialSrcOK (runHitURLs o c) d) :
    financialSrcOK (runHitURLs o c) (financialQueryStep o d q) := by
  simp only [financialQueryStep]
  split
  · exact foldl_srcOK scanFinancialHit _ _ (fun s h hu hs => scanFinancialHit_srcOK _ s h hu hs) _
      (fun h hh => url_mem_runHits o c q 5 "text" hcall h (List.mem_of_mem_take hh)) d hd
  · exact hd

theorem financial_phase_srcOK (o : Oracle) (c : String) :
    financialSrcOK (runHitURLs o c) (research_financial_infrastructure o c) := by
  unfold research_financial_infrastructure
  simp only [List.foldl_cons, List.foldl_nil]
  apply financialStep_srcOK o c _ (by simp [searchCalls])
  apply financialStep_srcOK o c _ (by simp [searchCalls])
  apply financialStep_srcOK o c _ (by simp [searchCalls])
  exact ⟨Or.inl rfl, Or.inl rfl⟩

/-! ## First-match-wins predicates -/

/-- A scan step never changes field `g` once its value is non-empty. -/
def stableGetter {σ β : Type} (f : σ → β → σ) (g : σ → FieldRecord) : Prop :=
  ∀ s x, (g s).value ≠ "" → g (f s x) = g s

/-- Whenever the head hit leaves field `g` with a non-empty value, the whole
scan of the hit list yields exactly the head hit's record for `g`. -/
def firstMatchGetter {σ : Type} (f : σ → SearchHit → σ) (g : σ → FieldRecord) : Prop :=
  ∀ (s : σ) (h : SearchHit) (l : List SearchHit),
    (g (f s h)).value ≠ "" → g ((h :: l).foldl f s) = g (f s h)

theorem stable_firstMatch {σ : Type} (f : σ → SearchHit → σ) (g : σ → FieldRecord)
    (hst : stableGetter f g) : firstMatchGetter f g :=
  fun s h l hv => foldl_first_match f g hst l s h hv

theorem scanBasic_stable (g : BasicInfo → FieldRecord)
    (hg : ∀ b item, (g b).value ≠ "" → g (scanBasicHit b item) = g b) :
    stableGetter scanBasicHit g := hg

theorem basicStep_stable (o : Oracle) (g : BasicInfo → FieldRecord)
    (hg : stableGetter scanBasicHit g) : stableGetter (basicQueryStep o) g := by
  intro s q hv
  simp only [basicQueryStep]
  split
  · exact foldl_field_stable scanBasicHit g hg _ s hv
  · rfl

theorem digitalStep_stable (o : Oracle) (g : DigitalData → FieldRecord)
    (hg : stableGetter scanDigitalHit g) : stableGetter (digitalQueryStep o) g := by
  intro s q hv
  simp only [digitalQueryStep]
  split
  · exact foldl_field_stable scanDigitalHit g hg _ s hv
  · rfl

theorem scanBasic_stable_website : stableGetter scanBasicHit BasicInfo.websiteURL :=
  fun _ _ hv => updateField_stable _ _ _ hv

theorem scanBasic_stable_linkedin : stableGetter scanBasicHit BasicInfo.linkedinURL :=
  fun _ _ hv => updateField_stable _ _ _ hv

theorem scanBasic_stable_headquarters : stableGetter scanBasicHit BasicInfo.headquarters :=
  fun _ _ hv => updateField_stable _ _ _ hv

theorem scanBasic_stable_industry : stableGetter scanBasicHit BasicInfo.industry :=
  fun _ _ hv => updateField_stable _ _ _ hv

theorem scanBasic_stable_employee : stableGetter scanBasicHit BasicInfo.employeeCount :=
  fun _ _ hv => updateField_stable _ _ _ hv

theorem scanDigital_stable_digital : stableGetter scanDigitalHit DigitalData.digitalTransformation :=
  fun _ _ hv => updateField_stable _ _ _ hv

theorem scanDigital_stable_iot : stableGetter scanDigitalHit DigitalData.iotAutomation :=
  fun _ _ hv => updateField_stable _ _ _ hv

theorem scanDigital_stable_cloud : stableGetter scanDigitalHit DigitalData.cloudAdoption :=
  fun _ _ hv => updateField_stable _ _ _ hv

/-! ## Claim theorems -/

/-- Claim C1, counterexample to the claim as stated: in a run of the
research loop in which every phase extractor raises, the returned mapping
holds only the three seeded and the two derived fields — the fifteen
researched keys are missing, so the result does not carry the fixed field
enumeration even though the loop caught every exception. -/
theorem phase_error_drops_fields_cex :
    (comprehensive_research_phases
        (List.replicate 5 ((fun _ => Except.error "phase failure") : PhaseFn)) "Acme Co").map Prod.fst
      = ["Company Name", "Core intent", "Stage", "Why Relevant to Syntel", "Intent scoring"] ∧
    ¬ (comprehensive_research_phases
        (List.replicate 5 ((fun _ => Except.error "phase failure") : PhaseFn)) "Acme Co").map Prod.fst
      = fixedFieldNames := by
  constructor
  · rfl
  · decide

/-- Claim C1 (amended): for every oracle and company name, a run of
`comprehensive_research` with the five shipped extractors — none of which
can raise, since the search adapter catches every backend error — returns a
mapping whose keys are exactly the fixed twenty-field enumeration, in
order: the three seeded fields, the fifteen researched fields of the five
phases, and the two derived fields.  (Had a phase extractor raised, its
keys would be missing: see the counterexample.) -/
theorem result_keys_complete (o : Oracle) (c : String) :
    (comprehensive_research o c).map Prod.fst = fixedFieldNames := by
  rw [research_normal_form]
  rfl

/-- Claim C5 (confirmed): an exception inside a phase extractor is caught at
the phase boundary, the accumulated result mapping is exactly what it was
before the phase started (`runPhase` returns its input unchanged), and the
run with that erroring phase spliced anywhere into the phase list produces
the same result as the run without it — every other phase still runs. -/
theorem phase_error_isolated (pre post : List PhaseFn) (p : PhaseFn) (c e : String)
    (h : p c = Except.error e) :
    (∀ acc : Results, runPhase acc p c = acc) ∧
    comprehensive_research_phases (pre ++ p :: post) c
      = comprehensive_research_phases (pre ++ post) c := by
  have hrun : ∀ acc : Results, runPhase acc p c = acc := by
    intro acc
    simp [runPhase, h]
  refine ⟨hrun, ?_⟩
  simp only [comprehensive_research_phases, List.foldl_append, List.foldl_cons, hrun]

/-- Witness for C5 at a concrete erroring phase. -/
theorem phase_error_isolated_witness :
    (∀ acc : Results, runPhase acc ((fun _ => Except.error "boom") : PhaseFn) "Acme Co" = acc) ∧
    comprehensive_research_phases ([] ++ ((fun _ => Except.error "boom") : PhaseFn) :: []) "Acme Co"
      = comprehensive_research_phases ([] ++ []) "Acme Co" :=
  phase_error_isolated [] [] (fun _ => Except.error "boom") "Acme Co" "boom" rfl

/-- Claim C2, counterexample to the claim as stated: two hits that both
satisfy the website trigger (`official`/`website`/`home` in the title), where
the earlier hit has an empty `url`.  The earlier hit assigns
`{value: "", source: ""}`, which leaves the field "unset", so the later hit
overwrites it: the resulting value/source are those of the *later* hit, not
the earlier one. -/
theorem first_match_empty_url_cex :
    containsAny (pyLower (SearchHit.mk "Acme Co - Official Website" "" "w").title)
        ["official", "website", "home"] = true ∧
    containsAny (pyLower (SearchHit.mk "Acme Co | Official Home" "https://b.example" "w").title)
        ["official", "website", "home"] = true ∧
    (([SearchHit.mk "Acme Co - Official Website" "" "w",
       SearchHit.mk "Acme Co | Official Home" "https://b.example" "w"].foldl
        scanBasicHit BasicInfo.init).websiteURL
      = ⟨"https://b.example", "https://b.example"⟩) ∧
    FieldRecord.mk "https://b.example" "https://b.example" ≠ ⟨"", ""⟩ := by
  refine ⟨by decide, by decide, ?_, by decide⟩
  decide

/-- Claim C2 (amended): first-match-wins holds per field provided the match
installs a non-empty value (a hit whose trigger fires but whose assigned
value is the empty string leaves the field "unset" and a later hit may fill
it).  Concretely, for every field of the two cited phases: (i) a per-hit
scan never changes a field whose value is non-empty; (ii) whenever the
first hit of a list leaves the field with a non-empty value, scanning the
whole list returns exactly the first hit's record; (iii) a whole query
iteration never changes a set field (so no later query of the phase can);
and (iv) in the completed run the entry at each of those keys is exactly
the record computed by its own phase — no later phase overwrites it. -/
theorem first_match_wins :
    (stableGetter scanBasicHit BasicInfo.websiteURL ∧
     stableGetter scanBasicHit BasicInfo.linkedinURL ∧
     stableGetter scanBasicHit BasicInfo.headquarters ∧
     stableGetter scanBasicHit BasicInfo.industry ∧
     stableGetter scanBasicHit BasicInfo.employeeCount) ∧
    (stableGetter scanDigitalHit DigitalData.digitalTransformation ∧
     stableGetter scanDigitalHit DigitalData.iotAutomation ∧
     stableGetter scanDigitalHit DigitalData.cloudAdoption) ∧
    (firstMatchGetter scanBasicHit BasicInfo.websiteURL ∧
     firstMatchGetter scanBasicHit BasicInfo.linkedinURL ∧
     firstMatchGetter scanBasicHit BasicInfo.headquarters ∧
     firstMatchGetter scanBasicHit BasicInfo.industry ∧
     firstMatchGetter scanBasicHit BasicInfo.employeeCount) ∧
    (firstMatchGetter scanDigitalHit DigitalData.digitalTransformation ∧
     firstMatchGetter scanDigitalHit DigitalData.iotAutomation ∧
     firstMatchGetter scanDigitalHit DigitalData.cloudAdoption) ∧
    (∀ o : Oracle,
      stableGetter (basicQueryStep o) BasicInfo.websiteURL ∧
      stableGetter (basicQueryStep o) BasicInfo.linkedinURL ∧
      stableGetter (basicQueryStep o) BasicInfo.headquarters ∧
      stableGetter (basicQueryStep o) BasicInfo.industry ∧
      stableGetter (basicQueryStep o) BasicInfo.employeeCount ∧
      stableGetter (digitalQueryStep o) DigitalData.digitalTransformation ∧
      stableGetter (digitalQueryStep o) DigitalData.iotAutomation ∧
      stableGetter (digitalQueryStep o) DigitalData.cloudAdoption) ∧
    (∀ (o : Oracle) (c : String),
      List.lookup "Company Website URL" (comprehensive_research o c)
        = some (extract_company_basic_info o c).websiteURL ∧
      List.lookup "LinkedIn URL" (comprehensive_research o c)
        = some (extract_company_basic_info o c).linkedinURL ∧
      List.lookup "Headquarters (Location)" (comprehensive_research o c)
        = some (extract_company_basic_info o c).headquarters ∧
      List.lookup "Industry Category" (comprehensive_research o c)
        = some (extract_company_basic_info o c).industry ∧
      List.lookup "Employee Count (LinkedIn)" (comprehensive_research o c)
        = some (extract_company_basic_info o c).employeeCount ∧
      List.lookup "Digital Transformation Initiatives / Smart Infra Programs" (comprehensive_research o c)
        = some (research_digital_transformation o c).digitalTransformation ∧
      List.lookup "IoT / Automation / Edge Integration Mentioned" (comprehensive_research o c)
        = some (research_digital_transformation o c).iotAutomation ∧
      List.lookup "Cloud Adoption / GCC Setup" (comprehensive_research o c)
        = some (research_digital_transformation o c).cloudAdoption) := by
  refine ⟨⟨scanBasic_stable_website, scanBasic_stable_linkedin, scanBasic_stable_headquarters,
      scanBasic_stable_industry, scanBasic_stable_employee⟩,
    ⟨scanDigital_stable_digital, scanDigital_stable_iot, scanDigital_stable_cloud⟩,
    ⟨stable_firstMatch _ _ scanBasic_stable_website, stable_firstMatch _ _ scanBasic_stable_linkedin,
     stable_firstMatch _ _ scanBasic_stable_headquarters, stable_firstMatch _ _ scanBasic_stable_industry,
     stable_firstMatch _ _ scanBasic_stable_employee⟩,
    ⟨stable_firstMatch _ _ scanDigital_stable_digital, stable_firstMatch _ _ scanDigital_stable_iot,
     stable_firstMatch _ _ scanDigital_stable_cloud⟩,
    fun o => ⟨basicStep_stable o _ scanBasic_stable_website, basicStep_stable o _ scanBasic_stable_linkedin,
      basicStep_stable o _ scanBasic_stable_headquarters, basicStep_stable o _ scanBasic_stable_industry,
      basicStep_stable o _ scanBasic_stable_employee, digitalStep_stable o _ scanDigital_stable_digital,
      digitalStep_stable o _ scanDigital_stable_iot, digitalStep_stable o _ scanDigital_stable_cloud⟩,
    fun o c => ⟨lookup_website o c, lookup_linkedin o c, lookup_headquarters o c,
      lookup_industry o c, lookup_employee o c, lookup_digital o c, lookup_iot o c, lookup_cloud o c⟩⟩

/-- Witness for C2: a concrete state with the website field already set is
untouched by a further hit whose title would trigger the field. -/
theorem first_match_wins_witness :
    (BasicInfo.mk ⟨"https://a.example", "https://a.example"⟩ ⟨"", ""⟩ ⟨"", ""⟩ ⟨"", ""⟩
        ⟨"", ""⟩).websiteURL.value ≠ "" ∧
    (scanBasicHit
        (BasicInfo.mk ⟨"https://a.example", "https://a.example"⟩ ⟨"", ""⟩ ⟨"", ""⟩ ⟨"", ""⟩ ⟨"", ""⟩)
        (SearchHit.mk "Other Official Website" "https://b.example" "x")).websiteURL
      = ⟨"https://a.example", "https://a.example"⟩ :=
  ⟨by decide, first_match_wins.1.1 _ _ (by decide)⟩

/-- Claim C3 (confirmed): the derived "Intent scoring" entry carries exactly
`intentTier` of `countSignals` over the post-phase mapping, where
`countSignals` counts the fields with non-empty value and non-empty source;
the tier is "High" iff the count exceeds 8, "Medium" iff it exceeds 5 but
not 8, and "Low" otherwise; counts 9, 6 and 3 give "High", "Medium", "Low". -/
theorem intent_scoring_thresholds :
    (∀ (o : Oracle) (c : String),
       List.lookup "Intent scoring" (comprehensive_research o c)
         = some ⟨intentTier (countSignals (phaseResults o c)), "Algorithm"⟩ ∧
       List.lookup "Why Relevant to Syntel" (comprehensive_research o c)
         = some ⟨whyRelevantText (countSignals (phaseResults o c)), "Analysis"⟩) ∧
    (∀ n : Nat,
       (intentTier n = "High" ↔ n > 8) ∧ (intentTier n = "Medium" ↔ n > 5 ∧ n ≤ 8) ∧
       (intentTier n = "Low" ↔ n ≤ 5)) ∧
    intentTier 9 = "High" ∧ intentTier 6 = "Medium" ∧ intentTier 3 = "Low" := by
  refine ⟨fun o c => ⟨lookup_intent o c, lookup_why o c⟩, fun n => ?_, rfl, rfl, rfl⟩
  unfold intentTier
  split_ifs with hg1 hg2 <;> refine ⟨?_, ?_, ?_⟩ <;> simp <;> omega

/-- Claim C4 (confirmed): the embedded search adapter is a total function —
on a backend error it returns an empty hit list plus the diagnostic string
instead of raising — and when the backend errors on every query of a run,
the run still completes with every researched field equal to the empty
record and the intent tier "Low". -/
theorem adapter_fail_soft :
    (∀ (o : Oracle) (q : String) (m : Nat) (t e : String),
       o q m t = Except.error e →
       duckduckgo_search o q m t = { results := [], error := some e }) ∧
    (∀ (err : String → Nat → String → String) (c : String),
       (∀ k ∈ researchedFieldNames,
          List.lookup k (comprehensive_research (fun q m t => Except.error (err q m t)) c)
            = some ⟨"", ""⟩) ∧
       List.lookup "Intent scoring"
           (comprehensive_research (fun q m t => Except.error (err q m t)) c)
         = some ⟨"Low", "Algorithm"⟩) := by
  constructor
  · intro o q m t e h
    unfold duckduckgo_search
    rw [h]
  · intro err c
    have hp : phaseResults (fun q m t => Except.error (err q m t)) c
        = seedResults c ++ BasicInfo.init.toList ++
          (ExpansionData.mk ⟨"", ""⟩ ⟨"", ""⟩).toList ++
          (DigitalData.mk ⟨"", ""⟩ ⟨"", ""⟩ ⟨"", ""⟩).toList ++
          (TechData.mk ⟨"", ""⟩ ⟨"", ""⟩ ⟨"", ""⟩).toList ++
          (FinancialData.mk ⟨"", ""⟩ ⟨"", ""⟩).toList := rfl
    constructor
    · intro k hk
      fin_cases hk <;> (rw [research_normal_form]; rfl)
    · rw [lookup_intent]
      have hx : countSignals (phaseResults (fun q m t => Except.error (err q m t)) c) ≤ 5 := by
        rw [hp, countSignals_append, countSignals_append, countSignals_append,
          countSignals_append, countSignals_append]
        have hs := countSignals_seed_le c
        have h1 : countSignals BasicInfo.init.toList = 0 := rfl
        have h2 : countSignals (ExpansionData.mk ⟨"", ""⟩ ⟨"", ""⟩).toList = 0 := rfl
        have h3 : countSignals (DigitalData.mk ⟨"", ""⟩ ⟨"", ""⟩ ⟨"", ""⟩).toList = 0 := rfl
        have h4 : countSignals (TechData.mk ⟨"", ""⟩ ⟨"", ""⟩ ⟨"", ""⟩).toList = 0 := rfl
        have h5 : countSignals (FinancialData.mk ⟨"", ""⟩ ⟨"", ""⟩).toList = 0 := rfl
        omega
      rw [intentTier_eq_low hx]

/-- Witness for C4 at a concrete always-erroring backend. -/
theorem adapter_fail_soft_witness :
    duckduckgo_search ((fun _ _ _ => Except.error "rate limited") : Oracle) "q" 3 "text"
      = { results := [], error := some "rate limited" } ∧
    List.lookup "Intent scoring"
        (comprehensive_research ((fun _ _ _ => Except.error "rate limited") : Oracle) "Acme Co")
      = some ⟨"Low", "Algorithm"⟩ :=
  ⟨adapter_fail_soft.1 _ "q" 3 "text" "rate limited" rfl,
   (adapter_fail_soft.2 (fun _ _ _ => "rate limited") "Acme Co").2⟩

/-- Claim C6, counterexample to the claim as stated: a hit whose description
is exactly `"3 new branches opened in Mumbai"` — the pattern
`(\d+)\s*(branches|...)` requires the digits to be adjacent (up to
whitespace) to the unit word, so `"3 new branches"` does not match and the
"Branch Network / Facilities Count" field stays unset, not
`{value: "3 branches", source: <hit url>}`. -/
theorem branch_count_mumbai_cex :
    substrOf "3 new branches opened in Mumbai"
        (SearchHit.mk "Expansion" "https://news.example/1"
          "3 new branches opened in Mumbai").description = true ∧
    (scanFacilityHit ⟨⟨"", ""⟩, ⟨"", ""⟩⟩
        (SearchHit.mk "Expansion" "https://news.example/1"
          "3 new branches opened in Mumbai")).branchNetwork
      = ⟨"", ""⟩ ∧
    FieldRecord.mk "" "" ≠ ⟨"3 branches", "https://news.example/1"⟩ := by
  refine ⟨by decide, ?_, by decide⟩
  decide

/-- Claim C6 (amended): a facility hit sets the unset
"Branch Network / Facilities Count" field to `"<count> <unit>"` with the
hit's url as source exactly when the facilities pattern matches the
lower-cased description, i.e. when a digit run is followed — with only
whitespace in between — by one of the unit words, as in `"opened 3
branches"`; with an intervening word, as in `"3 new branches opened in
Mumbai"`, the pattern finds nothing and the field stays unset. -/
theorem facility_count_capture (d : ExpansionData) (item : SearchHit) (n u : String)
    (hunset : d.branchNetwork.value = "")
    (hmatch : facilityFirstMatch (pyLower item.description).toList = some (n, u)) :
    (scanFacilityHit d item).branchNetwork = ⟨n ++ " " ++ u, item.url⟩ := by
  show updateField d.branchNetwork true
      ((facilityFirstMatch (pyLower item.description).toList).map
        (fun m => ⟨m.1 ++ " " ++ m.2, item.url⟩)) = _
  rw [hmatch]
  exact updateField_sets _ _ _ hunset rfl

/-- Witness for C6 on a hit whose count is adjacent to the unit word. -/
theorem facility_count_capture_witness :
    (ExpansionData.mk ⟨"", ""⟩ ⟨"", ""⟩).branchNetwork.value = "" ∧
    facilityFirstMatch (pyLower "Acme opened 3 branches in Mumbai").toList
      = some ("3", "branches") ∧
    (scanFacilityHit ⟨⟨"", ""⟩, ⟨"", ""⟩⟩
        (SearchHit.mk "Expansion" "https://news.example/2"
          "Acme opened 3 branches in Mumbai")).branchNetwork
      = ⟨"3 branches", "https://news.example/2"⟩ :=
  ⟨rfl, by decide, facility_count_capture _ _ "3" "branches" rfl (by decide)⟩

/-- Claim C7 (confirmed): extraction is deterministic — two oracles that
return the same answers on the sixteen search calls a run issues yield
identical research results; there is no other input to the computation. -/
theorem research_deterministic (o₁ o₂ : Oracle) (c : String)
    (h : ∀ call ∈ searchCalls c, o₁ call.1 call.2.1 call.2.2 = o₂ call.1 call.2.1 call.2.2) :
    comprehensive_research o₁ c = comprehensive_research o₂ c := by
  have hp : phaseResults o₁ c = phaseResults o₂ c := by
    unfold phaseResults
    rw [basic_congr o₁ o₂ c h, expansion_congr o₁ o₂ c h, digital_congr o₁ o₂ c h,
      tech_congr o₁ o₂ c h, financial_congr o₁ o₂ c h]
  rw [research_normal_form, research_normal_form, hp]

/-- Witness for C7: two different oracle implementations agreeing on every
issued call produce the same result. -/
theorem research_deterministic_witness :
    (∀ call ∈ searchCalls "Acme Co",
       ((fun _ _ _ => Except.error "offline") : Oracle) call.1 call.2.1 call.2.2
         = ((fun _ _ t => if t = "nonsense" then Except.ok [] else Except.error "offline") : Oracle)
             call.1 call.2.1 call.2.2) ∧
    comprehensive_research ((fun _ _ _ => Except.error "offline") : Oracle) "Acme Co"
      = comprehensive_research
          ((fun _ _ t => if t = "nonsense" then Except.ok [] else Except.error "offline") : Oracle)
          "Acme Co" := by
  have h : ∀ call ∈ searchCalls "Acme Co",
      ((fun _ _ _ => Except.error "offline") : Oracle) call.1 call.2.1 call.2.2
        = ((fun _ _ t => if t = "nonsense" then Except.ok [] else Except.error "offline") : Oracle)
            call.1 call.2.1 call.2.2 := by
    intro call hc
    fin_cases hc <;> rfl
  exact ⟨h, research_deterministic _ _ _ h⟩

theorem countSignals_two (k1 k2 : String) (r1 r2 : FieldRecord)
    (h1v : r1.value ≠ "") (h1s : r1.source ≠ "") (h2v : r2.value ≠ "") (h2s : r2.source ≠ "") :
    countSignals [(k1, r1), (k2, r2)] = 2 := by
  have b1 : (r1.value != "" && r1.source != "") = true := by
    simp [h1v, h1s]
  have b2 : (r2.value != "" && r2.source != "") = true := by
    simp [h2v, h2s]
  simp [countSignals, List.filter, b1, b2]

theorem fieldSrcOK_elim {A : List String} {r : FieldRecord} (h : fieldSrcOK A r) :
    r.source = "" ∨ r.source ∈ sentinelSources ∨ r.source ∈ A :=
  h.elim Or.inl (fun ha => Or.inr (Or.inr ha))

/-- Claim C8, counterexample to the claim as stated: in a run whose backend
errors on every query, the "Company Website URL" entry of the final result
has source `""`, which is not one of the four sentinel labels — and the run
returned no hits at all, so it is no hit URL either. -/
theorem empty_source_not_sentinel_cex :
    List.lookup "Company Website URL"
        (comprehensive_research ((fun _ _ _ => Except.error "offline") : Oracle) "Acme Co")
      = some ⟨"", ""⟩ ∧
    runHitURLs ((fun _ _ _ => Except.error "offline") : Oracle) "Acme Co" = [] ∧
    ("" : String) ∉ sentinelSources := by
  refine ⟨?_, by decide, by decide⟩
  rw [research_normal_form]
  rfl

/-- Claim C8 (amended): the mapping is seeded, before any search, with
exactly the three fields "Company Name" (the input name, source
"User Input"), "Core intent" ("Research", "Default") and "Stage"
("Analysis", "Default"); and every source in the final result is the empty
string (field never filled), one of the sentinel labels, or the URL of a
hit returned by the adapter during the run. -/
theorem sources_provenance (o : Oracle) (c : String) :
    seedResults c
      = [("Company Name", ⟨c, "User Input"⟩), ("Core intent", ⟨"Research", "Default"⟩),
         ("Stage", ⟨"Analysis", "Default"⟩)] ∧
    ∀ p ∈ comprehensive_research o c,
      p.2.source = "" ∨ p.2.source ∈ sentinelSources ∨ p.2.source ∈ runHitURLs o c := by
  refine ⟨rfl, ?_⟩
  intro p hp
  obtain ⟨hb1, hb2, hb3, hb4, hb5⟩ := basic_phase_srcOK o c
  obtain ⟨he1, he2⟩ := expansion_phase_srcOK o c
  obtain ⟨hd1, hd2, hd3⟩ := digital_phase_srcOK o c
  obtain ⟨ht1, ht2, ht3⟩ := tech_phase_srcOK o c
  obtain ⟨hf1, hf2⟩ := financial_phase_srcOK o c
  rw [research_normal_form] at hp
  simp only [phaseResults, List.append_assoc, List.mem_append, List.mem_cons, List.not_mem_nil,
    or_false, seedResults, BasicInfo.toList, ExpansionData.toList, DigitalData.toList,
    TechData.toList, FinancialData.toList] at hp
  rcases hp with (rfl | rfl | rfl) | (rfl | rfl | rfl | rfl | rfl) | (rfl | rfl) |
    (rfl | rfl | rfl) | (rfl | rfl | rfl) | (rfl | rfl) | (rfl | rfl)
  · exact Or.inr (Or.inl (by exact (by decide : ("User Input" : String) ∈ sentinelSources)))
  · exact Or.inr (Or.inl (by decide))
  · exact Or.inr (Or.inl (by decide))
  · exact fieldSrcOK_elim hb1
  · exact fieldSrcOK_elim hb2
  · exact fieldSrcOK_elim hb3
  · exact fieldSrcOK_elim hb4
  · exact fieldSrcOK_elim hb5
  · exact fieldSrcOK_elim he1
  · exact fieldSrcOK_elim he2
  · exact fieldSrcOK_elim hd1
  · exact fieldSrcOK_elim hd2
  · exact fieldSrcOK_elim hd3
  · exact fieldSrcOK_elim ht1
  · exact fieldSrcOK_elim ht2
  · exact fieldSrcOK_elim ht3
  · exact fieldSrcOK_elim hf1
  · exact fieldSrcOK_elim hf2
  · exact Or.inr (Or.inl (by exact (by decide : ("Analysis" : String) ∈ sentinelSources)))
  · exact Or.inr (Or.inl (by exact (by decide : ("Algorithm" : String) ∈ sentinelSources)))

/-- Witness for C8 applied to a concrete run and entry. -/
theorem sources_provenance_witness :
    ("Company Name", FieldRecord.mk "Acme Co" "User Input")
      ∈ comprehensive_research ((fun _ _ _ => Except.error "offline") : Oracle) "Acme Co" ∧
    (("Company Name", FieldRecord.mk "Acme Co" "User Input").2.source = "" ∨
     ("Company Name", FieldRecord.mk "Acme Co" "User Input").2.source ∈ sentinelSources ∨
     ("Company Name", FieldRecord.mk "Acme Co" "User Input").2.source
       ∈ runHitURLs ((fun _ _ _ => Except.error "offline") : Oracle) "Acme Co") := by
  have hm : ("Company Name", FieldRecord.mk "Acme Co" "User Input")
      ∈ comprehensive_research ((fun _ _ _ => Except.error "offline") : Oracle) "Acme Co" := by
    decide
  exact ⟨hm, (sources_provenance _ "Acme Co").2 _ hm⟩

/-- Claim C9, counterexample to the claim as stated: for the empty company
name the seeded "Company Name" record has an empty value, fails the
counting predicate, and the post-phase signal count of an all-error run is
2, below the claimed lower bound of 3. -/
theorem seed_count_empty_company_cex :
    countSignals (phaseResults ((fun _ _ _ => Except.error "down") : Oracle) "") = 2 ∧
    ¬ 3 ≤ countSignals (phaseResults ((fun _ _ _ => Except.error "down") : Oracle) "") ∧
    ¬ ((FieldRecord.mk "" "User Input").value ≠ "" ∧
       (FieldRecord.mk "" "User Input").source ≠ "") := by
  refine ⟨by decide, by decide, by decide⟩

/-- Claim C9 (amended): for every run whose company name is non-empty — the
UI only starts runs on non-empty input — the three seeded fields all
satisfy the counting predicate, so the signal count over the post-phase
mapping is at least 3; the count feeding the intent tier is taken over that
post-phase mapping, and the two derived fields appended afterwards (which
would both satisfy the predicate, adding 2) never contribute to it. -/
theorem signal_count_seeded_lower_bound (o : Oracle) (c : String) (hc : c ≠ "") :
    (∀ p ∈ seedResults c, p.2.value ≠ "" ∧ p.2.source ≠ "") ∧
    3 ≤ countSignals (phaseResults o c) ∧
    countSignals (comprehensive_research o c) = countSignals (phaseResults o c) + 2 ∧
    List.lookup "Intent scoring" (comprehensive_research o c)
      = some ⟨intentTier (countSignals (phaseResults o c)), "Algorithm"⟩ := by
  refine ⟨?_, ?_, ?_, lookup_intent o c⟩
  · intro p hp
    simp only [seedResults, List.mem_cons, List.not_mem_nil, or_false] at hp
    rcases hp with rfl | rfl | rfl
    · exact ⟨hc, by exact (by decide : ("User Input" : String) ≠ "")⟩
    · exact ⟨by decide, by decide⟩
    · exact ⟨by decide, by decide⟩
  · have h3 : countSignals (seedResults c) = 3 := countSignals_seed_of_ne c hc
    simp only [phaseResults, countSignals_append]
    omega
  · rw [research_normal_form, countSignals_append]
    have hw := whyRelevantText_ne_empty (countSignals (phaseResults o c))
    have hi := intentTier_ne_empty (countSignals (phaseResults o c))
    rw [countSignals_two _ _ _ _ hw (by exact (by decide : ("Analysis" : String) ≠ "")) hi
      (by exact (by decide : ("Algorithm" : String) ≠ ""))]

/-- Witness for C9 at a concrete non-empty company and all-error backend. -/
theorem signal_count_witness :
    ("Acme Co" : String) ≠ "" ∧
    3 ≤ countSignals (phaseResults ((fun _ _ _ => Except.error "down") : Oracle) "Acme Co") :=
  ⟨by decide,
   (signal_count_seeded_lower_bound ((fun _ _ _ => Except.error "down") : Oracle) "Acme Co"
     (by decide)).2.1⟩

/-- Claim C10 (confirmed): the headquarters gate accepts descriptions
containing "head office" or "located in", but the capture pattern
`(headquarters|based).*?(...)` needs the literal substring "headquarters"
or "based"; on a lower-cased description containing neither, the regex
finds nothing and the unset "Headquarters (Location)" field stays unset
after the hit is scanned. -/
theorem headquarters_gate_regex_mismatch (info : BasicInfo) (item : SearchHit)
    (hunset : info.headquarters = ⟨"", ""⟩)
    (hgate : substrOf "head office" (pyLower item.description) = true ∨
             substrOf "located in" (pyLower item.description) = true)
    (h1 : substrOf "headquarters" (pyLower item.description) = false)
    (h2 : substrOf "based" (pyLower item.description) = false) :
    (scanBasicHit info item).headquarters = ⟨"", ""⟩ := by
  have hnone : hqSearch (pyLower item.description).toList = none :=
    hqSearch_eq_none _ h1 h2
  show updateField info.headquarters
      (containsAny (pyLower item.description)
        ["headquarters", "head office", "based in", "located in"])
      ((hqSearch (pyLower item.description).toList).map (fun loc => ⟨pyStrip loc, item.url⟩))
      = ⟨"", ""⟩
  rw [hnone]
  simp [updateField, hunset]

/-- Witness for C10 on a concrete "head office" description. -/
theorem headquarters_gate_regex_mismatch_witness :
    BasicInfo.init.headquarters = ⟨"", ""⟩ ∧
    substrOf "head office" (pyLower "Their head office is in Pune") = true ∧
    substrOf "headquarters" (pyLower "Their head office is in Pune") = false ∧
    substrOf "based" (pyLower "Their head office is in Pune") = false ∧
    (scanBasicHit BasicInfo.init
        (SearchHit.mk "Acme" "https://x.example" "Their head office is in Pune")).headquarters
      = ⟨"", ""⟩ :=
  ⟨rfl, by decide, by decide, by decide,
   headquarters_gate_regex_mismatch BasicInfo.init
     (SearchHit.mk "Acme" "https://x.example" "Their head office is in Pune") rfl
     (Or.inl (by decide)) (by decide) (by decide)⟩
